import Mathlib

/-
  Verification of the cloudera_exporter ZooKeeper collector.

  The development shallowly embeds the two Go source files:
  * collector/zookeeper.go : the scraper-module pipeline (query/descriptor
    binding table, createZKMetricStruct, createZKMetric, Scrape).  The file
    contains two near-identical variants of the module; the second
    (lowerCamelCase) variant is embedded here; the first variant has the
    same loop and emission structure with a four-entry binding table.
  * the standalone collector file (ZookeeperCollector, NewZookeeperCollector,
    Describe, Collect, fetchMetric, timeSeriesAPIResponse).

  Modelling conventions:
  * Go float64 metric values are modelled as exact integers (Int); no claim
    under consideration depends on floating-point rounding, only on which
    points are selected, how many samples are produced, and how values are
    combined.
  * Network and JSON-parsing effects are modelled as oracle functions passed
    to the embedded functions (an HTTP oracle mapping a URL to a response,
    and a fetch oracle mapping a query string to a parsed-JSON result).
  * Channel emission is modelled as the ordered list of samples produced.
-/

namespace ClouderaZK

/- ====================================================================
   Common sample / descriptor model
   ==================================================================== -/

/-- Model of a prometheus.Desc: fully-qualified name, help text and the
ordered list of declared label names (the fields relevant to the
specification; constant labels are nil at every creation site). -/
structure Desc where
  fqName : String
  help : String
  labelNames : List String
deriving DecidableEq, Repr

/-- Model of one emitted prometheus gauge sample, as produced by
prometheus.MustNewConstMetric: the descriptor it was built from, the value,
and the ordered label values supplied. -/
structure ZKMetricSample where
  desc : Desc
  value : Int
  labelValues : List String
deriving DecidableEq, Repr

/- ====================================================================
   collector/zookeeper.go : scraper module
   ==================================================================== -/

/-- Model of prometheus.BuildFQName from the prometheus client library:
joins the non-empty parts of namespace, subsystem and name with
underscores; an empty name yields the empty string. -/
def buildFQName (ns subsystem name : String) : String :=
  if name = "" then ""
  else if ns ≠ "" ∧ subsystem ≠ "" then ns ++ "_" ++ subsystem ++ "_" ++ name
  else if ns ≠ "" then ns ++ "_" ++ name
  else if subsystem ≠ "" then subsystem ++ "_" ++ name
  else name

/-- Modelled from the spec: the package-level constant named namespace is
defined in a collector file outside src; its concrete value does not affect
any claim considered here (only label schemas and sample shapes do). -/
def exporterNS : String := "cloudera_exporter"

def ZK_SCRAPER_NAME : String := "zookeeper"

/-- Embedding of createZKMetricStruct from collector/zookeeper.go: builds a
descriptor with the fully-qualified metric name, the given (or
auto-generated) description, and the fixed label schema
cluster, entityName. -/
def createZKMetricStruct (metricName description : String) : Desc :=
  let description :=
    if description.length = 0
    then (metricName.toUpper).replace "_" " "
    else description
  { fqName := buildFQName exporterNS ZK_SCRAPER_NAME metricName
    help := description
    labelNames := ["cluster", "entityName"] }

-- Query string constants of the module (second variant of the file).
def ZK_ALERTS_RATE : String :=
  "SELECT LAST(alerts_rate) WHERE category=\"SERVICE\" AND serviceName=\"ZOOKEEPER\""
def ZK_CANARY_DURATION : String :=
  "SELECT LAST(canary_duration) WHERE category=\"SERVICE\" AND serviceName=\"ZOOKEEPER\""
def ZK_CURRENT_EPOCH_RATE : String :=
  "SELECT LAST(current_epoch_rate) WHERE category=\"SERVICE\" AND serviceName=\"ZOOKEEPER\""
def ZK_CURRENT_XID : String :=
  "SELECT LAST(current_xid) WHERE category=\"SERVICE\" AND serviceName=\"ZOOKEEPER\""
def ZK_EVENTS_CRITICAL_RATE : String :=
  "SELECT LAST(events_critical_rate) WHERE category=\"SERVICE\" AND serviceName=\"ZOOKEEPER\""
def ZK_EVENTS_IMPORTANT_RATE : String :=
  "SELECT LAST(events_important_rate) WHERE category=\"SERVICE\" AND serviceName=\"ZOOKEEPER\""
def ZK_EVENTS_INFORMATIONAL_RATE : String :=
  "SELECT LAST(events_informational_rate) WHERE category=\"SERVICE\" AND serviceName=\"ZOOKEEPER\""
def ZK_HEALTH_BAD_RATE : String :=
  "SELECT LAST(health_bad_rate) WHERE category=\"SERVICE\" AND serviceName=\"ZOOKEEPER\""
def ZK_HEALTH_CONCERNING_RATE : String :=
  "SELECT LAST(health_concerning_rate) WHERE category=\"SERVICE\" AND serviceName=\"ZOOKEEPER\""
def ZK_HEALTH_DISABLED_RATE : String :=
  "SELECT LAST(health_disabled_rate) WHERE category=\"SERVICE\" AND serviceName=\"ZOOKEEPER\""
def ZK_HEALTH_GOOD_RATE : String :=
  "SELECT LAST(health_good_rate) WHERE category=\"SERVICE\" AND serviceName=\"ZOOKEEPER\""
def ZK_HEALTH_UNKNOWN_RATE : String :=
  "SELECT LAST(health_unknown_rate) WHERE category=\"SERVICE\" AND serviceName=\"ZOOKEEPER\""
def ZK_ALERTS_RATE_ACROSS_CLUSTERS : String :=
  "SELECT LAST(alerts_rate_across_clusters)"
def ZK_TOTAL_ALERTS_RATE_ACROSS_CLUSTERS : String :=
  "SELECT LAST(total_alerts_rate_across_clusters)"

-- Package-level descriptors of the module.
def zkAlertsRate : Desc :=
  createZKMetricStruct "alerts_rate" "Number of ZooKeeper alerts (events per second)"
def zkCanaryDuration : Desc :=
  createZKMetricStruct "canary_duration_ms" "Duration of the last or currently running canary job (ms)"
def zkCurrentEpochRate : Desc :=
  createZKMetricStruct "current_epoch_rate" "The current epoch (epoch per second)"
def zkCurrentXID : Desc :=
  createZKMetricStruct "current_xid" "The current ZooKeeper XID"
def zkEventsCriticalRate : Desc :=
  createZKMetricStruct "events_critical_rate" "The number of critical events (events per second)"
def zkEventsImportantRate : Desc :=
  createZKMetricStruct "events_important_rate" "The number of important events (events per second)"
def zkEventsInformationalRate : Desc :=
  createZKMetricStruct "events_informational_rate" "The number of informational events (events per second)"
def zkHealthBadRate : Desc :=
  createZKMetricStruct "health_bad_rate" "Percentage of Time with Bad Health (s/s)"
def zkHealthConcerningRate : Desc :=
  createZKMetricStruct "health_concerning_rate" "Percentage of Time with Concerning Health (s/s)"
def zkHealthDisabledRate : Desc :=
  createZKMetricStruct "health_disabled_rate" "Percentage of Time with Disabled Health (s/s)"
def zkHealthGoodRate : Desc :=
  createZKMetricStruct "health_good_rate" "Percentage of Time with Good Health (s/s)"
def zkHealthUnknownRate : Desc :=
  createZKMetricStruct "health_unknown_rate" "Percentage of Time with Unknown Health (s/s)"
def zkAlertsRateAcrossClusters : Desc :=
  createZKMetricStruct "alerts_rate_across_servers" "Alerts rate aggregated across all clusters"
def zkTotalAlertsRateAcrossClusters : Desc :=
  createZKMetricStruct "total_alerts_rate_across_servers" "Total alerts rate aggregated across all clusters"

/-- Embedding of the relation struct: one query string paired with one
descriptor. -/
structure relation where
  Query : String
  Metric_struct : Desc
deriving DecidableEq, Repr

/-- Embedding of the package-level zkQueryVariableRelationship table. -/
def zkQueryVariableRelationship : List relation :=
  [ ⟨ZK_ALERTS_RATE,                zkAlertsRate⟩,
    ⟨ZK_CANARY_DURATION,            zkCanaryDuration⟩,
    ⟨ZK_CURRENT_EPOCH_RATE,         zkCurrentEpochRate⟩,
    ⟨ZK_CURRENT_XID,                zkCurrentXID⟩,
    ⟨ZK_EVENTS_CRITICAL_RATE,       zkEventsCriticalRate⟩,
    ⟨ZK_EVENTS_IMPORTANT_RATE,      zkEventsImportantRate⟩,
    ⟨ZK_EVENTS_INFORMATIONAL_RATE,  zkEventsInformationalRate⟩,
    ⟨ZK_HEALTH_BAD_RATE,            zkHealthBadRate⟩,
    ⟨ZK_HEALTH_CONCERNING_RATE,     zkHealthConcerningRate⟩,
    ⟨ZK_HEALTH_DISABLED_RATE,       zkHealthDisabledRate⟩,
    ⟨ZK_HEALTH_GOOD_RATE,           zkHealthGoodRate⟩,
    ⟨ZK_HEALTH_UNKNOWN_RATE,        zkHealthUnknownRate⟩,
    ⟨ZK_ALERTS_RATE_ACROSS_CLUSTERS,        zkAlertsRateAcrossClusters⟩,
    ⟨ZK_TOTAL_ALERTS_RATE_ACROSS_CLUSTERS,  zkTotalAlertsRateAcrossClusters⟩ ]

instance {ε α : Type} [DecidableEq ε] [DecidableEq α] : DecidableEq (Except ε α) := fun a b =>
  match a, b with
  | Except.ok x, Except.ok y =>
    if h : x = y then Decidable.isTrue (congrArg Except.ok h)
    else Decidable.isFalse (fun hc => h (Except.ok.inj hc))
  | Except.error x, Except.error y =>
    if h : x = y then Decidable.isTrue (congrArg Except.error h)
    else Decidable.isFalse (fun hc => h (Except.error.inj hc))
  | Except.ok _, Except.error _ => Decidable.isFalse (fun hc => Except.noConfusion hc)
  | Except.error _, Except.ok _ => Decidable.isFalse (fun hc => Except.noConfusion hc)

/-- Modelled from the spec: one parsed timeseries of the query response as
seen through the json_parser package (which is not under src): the cluster
identity, the entity identity, and the result of extracting the selected
scalar value for the series (the value extraction can fail, e.g. when the
series has no data points). -/
structure ParsedSeries where
  cluster : String
  entityName : String
  value : Except String Int
deriving DecidableEq, Repr

/-- Modelled from the spec: the parsed JSON of one timeseries query response
as consumed through the json_parser accessors (package not under src): the
result of reading the number of series, and the per-index series records. -/
structure JsonParsed where
  numSeries : Except String Nat
  seriesAt : List ParsedSeries
deriving DecidableEq, Repr

/-- Modelled from the spec: json_parser accessor returning the number of
timeseries in the response. -/
def Get_timeseries_num (jp : JsonParsed) : Except String Nat :=
  jp.numSeries

/-- Modelled from the spec: json_parser accessor for the cluster identity of
the series at an index; an undeterminable cluster yields the empty string
rather than an error. -/
def Get_timeseries_query_cluster (jp : JsonParsed) (i : Nat) : String :=
  match jp.seriesAt.get? i with
  | some s => s.cluster
  | none => ""

/-- Modelled from the spec: json_parser accessor for the entity identity of
the series at an index; an undeterminable entity yields the empty string. -/
def Get_timeseries_query_entity_name (jp : JsonParsed) (i : Nat) : String :=
  match jp.seriesAt.get? i with
  | some s => s.entityName
  | none => ""

/-- Modelled from the spec: json_parser accessor for the selected scalar
value of the series at an index; fails when the series has no usable data. -/
def Get_timeseries_query_value (jp : JsonParsed) (i : Nat) : Except String Int :=
  match jp.seriesAt.get? i with
  | some s => s.value
  | none => Except.error "series index out of range"

/-- Embedding of createZKMetric from collector/zookeeper.go.  The
make_and_parse_timeseries_query call (whose definition lives in a collector
file outside src) is modelled as the fetch oracle argument.  Returns the
boolean the Go function returns together with the ordered list of samples
written to the channel: a fetch failure or a series-count failure returns
false with no samples; otherwise one sample is emitted per series whose
value extraction succeeds (failing series are skipped with continue) and
the function returns true. -/
def createZKMetric (fetch : String → Except String JsonParsed)
    (query : String) (metricStruct : Desc) : Bool × List ZKMetricSample :=
  match fetch query with
  | Except.error _ => (false, [])
  | Except.ok jsonParsed =>
    match Get_timeseries_num jsonParsed with
    | Except.error _ => (false, [])
    | Except.ok numTsSeries =>
      (true, (List.range numTsSeries).filterMap (fun tsIndex =>
        match Get_timeseries_query_value jsonParsed tsIndex with
        | Except.error _ => none
        | Except.ok value =>
          some { desc := metricStruct
                 value := value
                 labelValues := [Get_timeseries_query_cluster jsonParsed tsIndex,
                                 Get_timeseries_query_entity_name jsonParsed tsIndex] }))

/-- Result of one Scrape invocation: the two counters, the ordered samples
written to the channel, the ordered trace of the queries handed to
createZKMetric (one per loop iteration, recording that the binding was
attempted), and the returned error value. -/
structure ScrapeResult where
  successQueries : Nat
  errorQueries : Nat
  samples : List ZKMetricSample
  attemptedQueries : List String
  scrapeError : Option String
deriving DecidableEq, Repr

/-- Embedding of the binding loop of Scrape: iterates the table in order,
invoking createZKMetric for every binding and incrementing the success or
the error counter according to its boolean result. -/
def scrapeLoop (fetch : String → Except String JsonParsed) :
    List relation → Nat × Nat × List ZKMetricSample × List String
  | [] => (0, 0, [], [])
  | rel :: rest =>
    let r := createZKMetric fetch rel.Query rel.Metric_struct
    let t := scrapeLoop fetch rest
    if r.fst then (t.1 + 1, t.2.1, r.snd ++ t.2.2.1, rel.Query :: t.2.2.2)
    else (t.1, t.2.1 + 1, r.snd ++ t.2.2.1, rel.Query :: t.2.2.2)

/-- Embedding of ScrapeZookeeperMetrics.Scrape, generalized over the binding
table it iterates (the Go code reads the package-level table
zkQueryVariableRelationship; the loop body is identical for any table).
Scrape always returns nil after the loop. -/
def zkScrape (fetch : String → Except String JsonParsed)
    (tbl : List relation) : ScrapeResult :=
  let t := scrapeLoop fetch tbl
  { successQueries := t.1
    errorQueries := t.2.1
    samples := t.2.2.1
    attemptedQueries := t.2.2.2
    scrapeError := none }

/- ====================================================================
   Standalone collector file (src/unnamed/part_000)
   ==================================================================== -/

/-- Embedding of one data point of the timeSeriesAPIResponse JSON shape:
a timestamp string and a scalar value. -/
structure TSDataPoint where
  timestamp : String
  value : Int
deriving DecidableEq, Repr

/-- Embedding of one timeSeries entry of the response: its metadata metric
name and the ordered list of data points. -/
structure TSSeries where
  metricName : String
  data : List TSDataPoint
deriving DecidableEq, Repr

/-- Embedding of one items entry of the response. -/
structure TSItem where
  timeSeries : List TSSeries
deriving DecidableEq, Repr

/-- Embedding of the timeSeriesAPIResponse struct. -/
structure TimeSeriesAPIResponse where
  items : List TSItem
deriving DecidableEq, Repr

/-- Embedding of the ZookeeperCollector struct: the fourteen descriptor
fields and the Cloudera Manager connection details. -/
structure ZookeeperCollector where
  alertsRate : Desc
  canaryDuration : Desc
  currentEpochRate : Desc
  currentXid : Desc
  eventsCriticalRate : Desc
  eventsImportantRate : Desc
  eventsInformationalRate : Desc
  healthBadRate : Desc
  healthConcerningRate : Desc
  healthDisabledRate : Desc
  healthGoodRate : Desc
  healthUnknownRate : Desc
  alertsRateAcrossClusters : Desc
  totalAlertsRateAcrossClusters : Desc
  cmHost : String
  cmPort : String
  apiVersion : String
  username : String
  password : String
deriving DecidableEq, Repr

/-- Embedding of NewZookeeperCollector: builds the collector with its
descriptor literals (base metrics declare the single label cluster;
the two across-clusters aggregates declare no labels) and stores the
connection details. -/
def NewZookeeperCollector (cmHost cmPort apiVersion username password : String) :
    ZookeeperCollector :=
  { alertsRate :=
      ⟨"zookeeper_alerts_rate",
       "Number of ZooKeeper alerts (events per second)", ["cluster"]⟩
    canaryDuration :=
      ⟨"zookeeper_canary_duration_ms",
       "Duration of the last or currently running ZooKeeper canary job (milliseconds)", ["cluster"]⟩
    currentEpochRate :=
      ⟨"zookeeper_current_epoch_rate",
       "The current epoch (epoch per second)", ["cluster"]⟩
    currentXid :=
      ⟨"zookeeper_current_xid",
       "The current ZooKeeper XID", ["cluster"]⟩
    eventsCriticalRate :=
      ⟨"zookeeper_events_critical_rate",
       "Number of critical events (events per second)", ["cluster"]⟩
    eventsImportantRate :=
      ⟨"zookeeper_events_important_rate",
       "Number of important events (events per second)", ["cluster"]⟩
    eventsInformationalRate :=
      ⟨"zookeeper_events_informational_rate",
       "Number of informational events (events per second)", ["cluster"]⟩
    healthBadRate :=
      ⟨"zookeeper_health_bad_rate",
       "Percentage of time with Bad Health (seconds per second)", ["cluster"]⟩
    healthConcerningRate :=
      ⟨"zookeeper_health_concerning_rate",
       "Percentage of time with Concerning Health (seconds per second)", ["cluster"]⟩
    healthDisabledRate :=
      ⟨"zookeeper_health_disabled_rate",
       "Percentage of time with Disabled Health (seconds per second)", ["cluster"]⟩
    healthGoodRate :=
      ⟨"zookeeper_health_good_rate",
       "Percentage of time with Good Health (seconds per second)", ["cluster"]⟩
    healthUnknownRate :=
      ⟨"zookeeper_health_unknown_rate",
       "Percentage of time with Unknown Health (seconds per second)", ["cluster"]⟩
    alertsRateAcrossClusters :=
      ⟨"zookeeper_alerts_rate_across_clusters",
       "Alerts rate aggregated across all clusters", []⟩
    totalAlertsRateAcrossClusters :=
      ⟨"zookeeper_total_alerts_rate_across_clusters",
       "Total alerts rate aggregated across all clusters", []⟩
    cmHost := cmHost
    cmPort := cmPort
    apiVersion := apiVersion
    username := username
    password := password }

/-- Embedding of ZookeeperCollector.Describe: sends the fourteen descriptor
fields, in declaration order, on every call. -/
def Describe (zc : ZookeeperCollector) : List Desc :=
  [ zc.alertsRate, zc.canaryDuration, zc.currentEpochRate, zc.currentXid,
    zc.eventsCriticalRate, zc.eventsImportantRate, zc.eventsInformationalRate,
    zc.healthBadRate, zc.healthConcerningRate, zc.healthDisabledRate,
    zc.healthGoodRate, zc.healthUnknownRate,
    zc.alertsRateAcrossClusters, zc.totalAlertsRateAcrossClusters ]

/-- Model of the outcome of the HTTP round trip performed inside
fetchMetric: either a transport-level failure (client.Do error, which also
covers the 10-second timeout), or a response carrying a status code and the
result of JSON-decoding its body (the decode is only consulted by the code
after the status check). -/
inductive HTTPResult where
  | transportError (msg : String)
  | response (statusCode : Nat) (body : Except String TimeSeriesAPIResponse)

/-- Typed failure of fetchMetric, classifying the error values the Go
function returns on its early-exit paths. -/
inductive FetchError where
  | requestError (msg : String)
  | transportError (msg : String)
  | upstreamError (statusCode : Nat)
  | decodeError (msg : String)
deriving DecidableEq, Repr

/-- Embedding of the URL construction inside fetchMetric: the metric name is
pasted verbatim into the query parameter; a non-empty cluster name appends
the literal percent-encoded bracket clause; an empty cluster name appends
nothing. -/
def buildFetchURL (cmHost cmPort apiVersion metricName clusterName : String) : String :=
  if clusterName ≠ "" then
    "http://" ++ cmHost ++ ":" ++ cmPort ++ "/api/" ++ apiVersion ++
      "/timeseries?query=" ++ metricName ++ "%5BclusterName=" ++ clusterName ++ "%5D"
  else
    "http://" ++ cmHost ++ ":" ++ cmPort ++ "/api/" ++ apiVersion ++
      "/timeseries?query=" ++ metricName

/-- Embedding of the per-series step of the accumulation loop inside
fetchMetric: a series with an empty data list leaves the sum/count
accumulator unchanged; otherwise the data point at position length - 1
(the positionally last point) is added to the sum and the count is
incremented. -/
def seriesStep (acc : Int × Nat) (ts : TSSeries) : Int × Nat :=
  let dataLen := ts.data.length
  if dataLen = 0 then acc
  else
    let lastPoint := ts.data.getD (dataLen - 1) ⟨"", 0⟩
    (acc.1 + lastPoint.value, acc.2 + 1)

/-- Embedding of the nested loops of fetchMetric over items and their
timeSeries, accumulating the sum of the selected values and the count of
contributing series. -/
def normalizeSum (tsResp : TimeSeriesAPIResponse) : Int × Nat :=
  tsResp.items.foldl (fun acc item => item.timeSeries.foldl seriesStep acc) (0, 0)

/-- Embedding of ZookeeperCollector.fetchMetric.  The network is modelled as
the http oracle mapping the built URL to an HTTPResult (basic-auth headers
and the request construction, which cannot fail on in-memory inputs, are
absorbed into the oracle).  A non-200 status fails with the status code; a
decode failure fails; otherwise the summed last values are returned, with
value 0 and no error when no series contributed. -/
def fetchMetric (http : String → HTTPResult) (zc : ZookeeperCollector)
    (metricName clusterName : String) : Except FetchError Int :=
  let url := buildFetchURL zc.cmHost zc.cmPort zc.apiVersion metricName clusterName
  match http url with
  | HTTPResult.transportError msg => Except.error (FetchError.transportError msg)
  | HTTPResult.response statusCode body =>
    if statusCode ≠ 200 then Except.error (FetchError.upstreamError statusCode)
    else
      match body with
      | Except.error msg => Except.error (FetchError.decodeError msg)
      | Except.ok tsResp =>
        let sc := normalizeSum tsResp
        if sc.2 = 0 then Except.ok 0
        else Except.ok sc.1

/-- Emission helper shared by the four fetch sites of Collect: on a fetch
error nothing is emitted (the error is only logged); on success one sample
is emitted with the given descriptor and label values. -/
def emitIfOk (r : Except FetchError Int) (d : Desc) (labels : List String) :
    List ZKMetricSample :=
  match r with
  | Except.error _ => []
  | Except.ok v => [{ desc := d, value := v, labelValues := labels }]

/-- Embedding of ZookeeperCollector.Collect: fetches alerts_rate scoped to
the hard-coded cluster name (emitting with the cluster label), the two
across-clusters aggregates with an empty scope (emitting with no labels),
and canary_duration scoped to the cluster, in source order. -/
def Collect (http : String → HTTPResult) (zc : ZookeeperCollector) :
    List ZKMetricSample :=
  let clusterName := "DemoCluster"
  emitIfOk (fetchMetric http zc "alerts_rate" clusterName) zc.alertsRate [clusterName]
  ++ emitIfOk (fetchMetric http zc "alerts_rate_across_clusters" "")
       zc.alertsRateAcrossClusters []
  ++ emitIfOk (fetchMetric http zc "total_alerts_rate_across_clusters" "")
       zc.totalAlertsRateAcrossClusters []
  ++ emitIfOk (fetchMetric http zc "canary_duration" clusterName) zc.canaryDuration [clusterName]

/- ====================================================================
   URL-encoding reference definition (for the refinement claim about the
   query-client URL construction)
   ==================================================================== -/

/-- Character class kept verbatim by percent-encoding of a URL query
component (unreserved characters of RFC 3986). -/
def isUnreservedQueryChar (c : Char) : Bool :=
  c.isAlphanum || c = '-' || c = '_' || c = '.' || c = '~'

/-- Uppercase hexadecimal digit for a value below 16. -/
def hexDigitChar (n : Nat) : Char :=
  if n < 10 then Char.ofNat (48 + n) else Char.ofNat (55 + n)

/-- Percent-encoding of one ASCII character. -/
def percentEncodeChar (c : Char) : String :=
  "%" ++ (hexDigitChar (c.toNat / 16 % 16)).toString ++ (hexDigitChar (c.toNat % 16)).toString

/-- Modelled from the spec: URL-encoding of the query expression, which the
spec says the query client performs before templating the expression into
the request URL (standard percent-encoding of a query component, stated for
ASCII expressions).  This definition follows the words of the spec and is
compared against the URL construction embedded from the source. -/
def urlEncode (s : String) : String :=
  s.data.foldl
    (fun acc c => acc ++ if isUnreservedQueryChar c then c.toString else percentEncodeChar c) ""

/- ====================================================================
   Helper lemmas
   ==================================================================== -/

lemma getD_last (l : List TSDataPoint) (h : l ≠ []) :
    l.getD (l.length - 1) ⟨"", 0⟩ = l.getLast h := by
  have hlen : l.length - 1 < l.length := by
    cases l with
    | nil => exact absurd rfl h
    | cons a t => simp
  rw [List.getD_eq_getElem l _ hlen, List.getLast_eq_getElem]

lemma seriesStep_nonempty (acc : Int × Nat) (ts : TSSeries) (h : ts.data ≠ []) :
    seriesStep acc ts = (acc.1 + (ts.data.getLast h).value, acc.2 + 1) := by
  have hlen : ts.data.length ≠ 0 := fun hc => h (List.length_eq_zero.mp hc)
  simp only [seriesStep, hlen, if_false, getD_last ts.data h]

lemma scrapeLoop_spec (fetch : String → Except String JsonParsed) (tbl : List relation) :
    scrapeLoop fetch tbl =
      ((tbl.filter (fun rel => (createZKMetric fetch rel.Query rel.Metric_struct).fst)).length,
       (tbl.filter (fun rel => !(createZKMetric fetch rel.Query rel.Metric_struct).fst)).length,
       tbl.flatMap (fun rel => (createZKMetric fetch rel.Query rel.Metric_struct).snd),
       tbl.map (fun rel => rel.Query)) := by
  induction tbl with
  | nil => rfl
  | cons rel rest ih =>
    simp only [scrapeLoop, ih]
    by_cases hb : (createZKMetric fetch rel.Query rel.Metric_struct).fst
    · simp [hb, List.filter_cons, List.flatMap_cons]
    · simp [hb, List.filter_cons, List.flatMap_cons]

lemma zkScrape_spec (fetch : String → Except String JsonParsed) (tbl : List relation) :
    zkScrape fetch tbl =
      { successQueries :=
          (tbl.filter (fun rel => (createZKMetric fetch rel.Query rel.Metric_struct).fst)).length
        errorQueries :=
          (tbl.filter (fun rel => !(createZKMetric fetch rel.Query rel.Metric_struct).fst)).length
        samples := tbl.flatMap (fun rel => (createZKMetric fetch rel.Query rel.Metric_struct).snd)
        attemptedQueries := tbl.map (fun rel => rel.Query)
        scrapeError := none } := by
  unfold zkScrape
  rw [scrapeLoop_spec]

lemma length_filter_split {α : Type} (p : α → Bool) (l : List α) :
    (l.filter p).length + (l.filter (fun a => !p a)).length = l.length := by
  induction l with
  | nil => rfl
  | cons a t ih =>
    by_cases h : p a <;> simp [List.filter_cons, h] <;> omega

lemma createZKMetric_fetchError (fetch : String → Except String JsonParsed)
    (q : String) (d : Desc) (e : String) (hf : fetch q = Except.error e) :
    createZKMetric fetch q d = (false, []) := by
  unfold createZKMetric
  rw [hf]

lemma mem_createZKMetric_samples (fetch : String → Except String JsonParsed)
    (q : String) (d : Desc) (s : ZKMetricSample)
    (hs : s ∈ (createZKMetric fetch q d).snd) :
    s.desc = d ∧ s.labelValues.length = 2 := by
  cases hfq : fetch q with
  | error e => simp [createZKMetric, hfq] at hs
  | ok jp =>
    cases hn : Get_timeseries_num jp with
    | error e => simp [createZKMetric, hfq, hn] at hs
    | ok n =>
      simp only [createZKMetric, hfq, hn] at hs
      rw [List.mem_filterMap] at hs
      obtain ⟨i, _, hsome⟩ := hs
      cases hv : Get_timeseries_query_value jp i with
      | error e =>
        rw [hv] at hsome
        exact Option.noConfusion hsome
      | ok v =>
        rw [hv] at hsome
        cases Option.some.inj hsome
        exact ⟨rfl, rfl⟩

lemma range_filterMap_bind {α β : Type} (l : List α) (G : α → Option β) :
    (List.range l.length).filterMap (fun i => (l.get? i).bind G) = l.filterMap G := by
  induction l with
  | nil => rfl
  | cons a t ih =>
    rw [List.length_cons, List.range_succ_eq_map, List.filterMap_cons, List.filterMap_map]
    have hcomp : ((fun i => ((a :: t).get? i).bind G) ∘ Nat.succ)
        = fun i => (t.get? i).bind G := by
      funext i
      rfl
    rw [hcomp, ih, List.filterMap_cons]
    have h0 : ((a :: t).get? 0).bind G = G a := rfl
    rw [h0]

lemma filterMap_eq_map_of_forall {α β : Type} (l : List α) (G : α → Option β) (F : α → β)
    (h : ∀ a ∈ l, G a = some (F a)) : l.filterMap G = l.map F := by
  induction l with
  | nil => rfl
  | cons a t ih =>
    rw [List.filterMap_cons, h a (List.mem_cons_self a t), List.map_cons,
        ih (fun x hx => h x (List.mem_cons_of_mem a hx))]

lemma createZKMetric_samples_eq (fetch : String → Except String JsonParsed)
    (q : String) (d : Desc) (jp : JsonParsed)
    (hf : fetch q = Except.ok jp)
    (hn : jp.numSeries = Except.ok jp.seriesAt.length) :
    createZKMetric fetch q d =
      (true, jp.seriesAt.filterMap (fun s =>
        match s.value with
        | Except.error _ => none
        | Except.ok v =>
          some { desc := d, value := v, labelValues := [s.cluster, s.entityName] })) := by
  have hnum : Get_timeseries_num jp = Except.ok jp.seriesAt.length := hn
  simp only [createZKMetric, hf, hnum]
  refine congrArg (Prod.mk true) ?_
  rw [← range_filterMap_bind jp.seriesAt
        (fun s => match s.value with
          | Except.error _ => none
          | Except.ok v =>
            some ({ desc := d, value := v,
                    labelValues := [s.cluster, s.entityName] } : ZKMetricSample))]
  refine congrArg (fun f => List.filterMap f (List.range jp.seriesAt.length)) ?_
  funext i
  cases hgi : jp.seriesAt[i]? with
  | none =>
    simp [Get_timeseries_query_value, List.get?_eq_getElem?, hgi]
  | some s =>
    cases hsv : s.value <;>
      simp [Get_timeseries_query_value, Get_timeseries_query_cluster,
            Get_timeseries_query_entity_name, List.get?_eq_getElem?, hgi, hsv]

lemma mem_emitIfOk (r : Except FetchError Int) (d : Desc) (labels : List String)
    (s : ZKMetricSample) (hs : s ∈ emitIfOk r d labels) :
    s.desc = d ∧ s.labelValues = labels := by
  cases r with
  | error e => simp [emitIfOk] at hs
  | ok v =>
    simp only [emitIfOk, List.mem_singleton] at hs
    subst hs
    exact ⟨rfl, rfl⟩

lemma foldl_seriesStep_empty (l : List TSSeries) (acc : Int × Nat)
    (h : ∀ ts ∈ l, ts.data = []) : l.foldl seriesStep acc = acc := by
  induction l generalizing acc with
  | nil => rfl
  | cons a t ih =>
    rw [List.foldl_cons]
    have ha : a.data = [] := h a (List.mem_cons_self a t)
    have hstep : seriesStep acc a = acc := by
      simp [seriesStep, ha]
    rw [hstep, ih acc (fun ts hts => h ts (List.mem_cons_of_mem a hts))]

lemma normalizeSum_empty (resp : TimeSeriesAPIResponse)
    (h : ∀ it ∈ resp.items, ∀ ts ∈ it.timeSeries, ts.data = []) :
    normalizeSum resp = (0, 0) := by
  unfold normalizeSum
  have hgen : ∀ (items : List TSItem) (acc : Int × Nat),
      (∀ it ∈ items, ∀ ts ∈ it.timeSeries, ts.data = []) →
      items.foldl (fun acc item => item.timeSeries.foldl seriesStep acc) acc = acc := by
    intro items
    induction items with
    | nil => intro acc _; rfl
    | cons it rest ih =>
      intro acc hall
      rw [List.foldl_cons,
          foldl_seriesStep_empty it.timeSeries acc (hall it (List.mem_cons_self it rest))]
      exact ih acc (fun x hx => hall x (List.mem_cons_of_mem it hx))
  exact hgen resp.items (0, 0) h

/- ====================================================================
   Concrete fixtures for witnesses and counterexamples
   ==================================================================== -/

/-- Demo collector instance used by the concrete evaluations. -/
def zcDemo : ZookeeperCollector :=
  NewZookeeperCollector "cm-host" "7180" "v33" "admin" "secret"

/-- Response whose only series has an empty data-point list. -/
def respAllEmpty : TimeSeriesAPIResponse := ⟨[⟨[⟨"alerts_rate", []⟩]⟩]⟩

/-- HTTP oracle answering every URL with status 200 and respAllEmpty. -/
def httpAllEmpty : String → HTTPResult :=
  fun _ => HTTPResult.response 200 (Except.ok respAllEmpty)

/-- Response with two series, each carrying one data point (values 1 and 2). -/
def respTwoSeries : TimeSeriesAPIResponse :=
  ⟨[⟨[⟨"alerts_rate", [⟨"t1", 1⟩]⟩, ⟨"alerts_rate", [⟨"t2", 2⟩]⟩]⟩]⟩

/-- HTTP oracle answering every URL with status 200 and respTwoSeries. -/
def httpTwoSeries : String → HTTPResult :=
  fun _ => HTTPResult.response 200 (Except.ok respTwoSeries)

/-- A series whose data points are out of timestamp order: the positionally
last point carries timestamp t1 and value 7. -/
def tsOutOfOrder : TSSeries := ⟨"alerts_rate", [⟨"t9", 1⟩, ⟨"t1", 7⟩]⟩

/-- A parsed response (scraper-module path) whose two series both fail value
extraction. -/
def jpAllErr : JsonParsed :=
  ⟨Except.ok 2, [⟨"c1", "e1", Except.error "no data points"⟩,
                 ⟨"c2", "e2", Except.error "parse failure"⟩]⟩

/-- Fetch oracle answering every query with jpAllErr. -/
def fetchAllErr : String → Except String JsonParsed := fun _ => Except.ok jpAllErr

/- ====================================================================
   Claim theorems
   ==================================================================== -/

/-- C1: for every Scrape invocation over a binding table of N bindings of
which K fail (K being the number of bindings on which createZKMetric
returns false), the module still emits the samples of every successful
binding (the emitted stream is the in-order concatenation of the
per-binding sample lists, failed bindings contributing nothing), returns a
nil module result, the success/error tally equals (N-K, K), and every
binding is attempted regardless of earlier failures (no single query
failure aborts the scrape). -/
theorem zk_C1_partial_failure_isolation (fetch : String → Except String JsonParsed)
    (tbl : List relation) :
    (zkScrape fetch tbl).scrapeError = none ∧
    (zkScrape fetch tbl).errorQueries =
      (tbl.filter (fun rel => !(createZKMetric fetch rel.Query rel.Metric_struct).fst)).length ∧
    (zkScrape fetch tbl).successQueries =
      tbl.length -
        (tbl.filter (fun rel => !(createZKMetric fetch rel.Query rel.Metric_struct).fst)).length ∧
    (zkScrape fetch tbl).samples =
      tbl.flatMap (fun rel => (createZKMetric fetch rel.Query rel.Metric_struct).snd) ∧
    (zkScrape fetch tbl).attemptedQueries = tbl.map (fun rel => rel.Query) := by
  rw [zkScrape_spec]
  refine ⟨rfl, rfl, ?_, rfl, rfl⟩
  have hsplit :=
    length_filter_split (fun rel => (createZKMetric fetch rel.Query rel.Metric_struct).fst) tbl
  simp only at hsplit ⊢
  omega

/-- C2: for every series with at least one data point, the value selected by
the normalization inside fetchMetric is exactly the positionally last data
point of its list (getLast), independent of the timestamp strings; in
particular a single-series response yields exactly that last value. -/
theorem zk_C2_last_point_positional (ts : TSSeries) (h : ts.data ≠ [])
    (acc : Int × Nat) (zc : ZookeeperCollector) (m c : String) :
    seriesStep acc ts = (acc.1 + (ts.data.getLast h).value, acc.2 + 1) ∧
    fetchMetric (fun _ => HTTPResult.response 200 (Except.ok ⟨[⟨[ts]⟩]⟩)) zc m c
      = Except.ok (ts.data.getLast h).value := by
  refine ⟨seriesStep_nonempty acc ts h, ?_⟩
  have hns : normalizeSum ⟨[⟨[ts]⟩]⟩ = ((ts.data.getLast h).value, 1) := by
    unfold normalizeSum
    simp only [List.foldl_cons, List.foldl_nil, seriesStep_nonempty (0, 0) ts h]
    simp
  simp [fetchMetric, hns]

/-- Witness for C2: with timestamps out of order (t9 before t1), the point
selected is the positionally last one (value 7), not the one with the
greatest timestamp. -/
theorem zk_C2_witness :
    seriesStep (0, 0) tsOutOfOrder = (7, 1) ∧
    fetchMetric (fun _ => HTTPResult.response 200 (Except.ok ⟨[⟨[tsOutOfOrder]⟩]⟩)) zcDemo
      "alerts_rate" "DemoCluster" = Except.ok 7 := by
  have h : tsOutOfOrder.data ≠ [] := by decide
  have hthm :=
    zk_C2_last_point_positional tsOutOfOrder h (0, 0) zcDemo "alerts_rate" "DemoCluster"
  have hval : (tsOutOfOrder.data.getLast h).value = 7 := rfl
  constructor
  · rw [hthm.1, hval]
    norm_num
  · rw [hthm.2, hval]

/-- C10: whenever the fetch succeeds and the series count parses,
createZKMetric returns true; if additionally value extraction fails for
every series, zero samples are emitted yet the result is still true, and a
module scraping that binding tallies it as a success with a nil result. -/
theorem zk_C10_success_despite_value_errors (fetch : String → Except String JsonParsed)
    (q : String) (d : Desc) (jp : JsonParsed)
    (hf : fetch q = Except.ok jp)
    (hn : jp.numSeries = Except.ok jp.seriesAt.length) :
    (createZKMetric fetch q d).fst = true ∧
    ((∀ s ∈ jp.seriesAt, ∃ msg, s.value = Except.error msg) →
      createZKMetric fetch q d = (true, [])) ∧
    (zkScrape fetch [⟨q, d⟩]).successQueries = 1 ∧
    (zkScrape fetch [⟨q, d⟩]).errorQueries = 0 ∧
    (zkScrape fetch [⟨q, d⟩]).scrapeError = none := by
  have hck := createZKMetric_samples_eq fetch q d jp hf hn
  refine ⟨by rw [hck], ?_, ?_, ?_, by rw [zkScrape_spec]⟩
  · intro hall
    rw [hck]
    refine congrArg (Prod.mk true) ?_
    rw [List.filterMap_eq_nil_iff]
    intro s hsmem
    obtain ⟨msg, hmsg⟩ := hall s hsmem
    rw [hmsg]
  · rw [zkScrape_spec]
    simp [List.filter_cons, hck]
  · rw [zkScrape_spec]
    simp [List.filter_cons, hck]

/-- Witness for C10: a response with two series whose value extractions both
fail still yields a true result, zero samples, and a success tally of one. -/
theorem zk_C10_witness :
    (createZKMetric fetchAllErr ZK_ALERTS_RATE zkAlertsRate).fst = true ∧
    createZKMetric fetchAllErr ZK_ALERTS_RATE zkAlertsRate = (true, []) ∧
    (zkScrape fetchAllErr [⟨ZK_ALERTS_RATE, zkAlertsRate⟩]).successQueries = 1 ∧
    (zkScrape fetchAllErr [⟨ZK_ALERTS_RATE, zkAlertsRate⟩]).errorQueries = 0 := by
  have h := zk_C10_success_despite_value_errors fetchAllErr ZK_ALERTS_RATE zkAlertsRate
    jpAllErr rfl rfl
  have hall : ∀ s ∈ jpAllErr.seriesAt, ∃ msg, s.value = Except.error msg := by
    intro s hs
    simp only [jpAllErr, List.mem_cons, List.not_mem_nil, or_false] at hs
    rcases hs with h1 | h2
    · exact ⟨"no data points", by rw [h1]⟩
    · exact ⟨"parse failure", by rw [h2]⟩
  exact ⟨h.1, h.2.1 hall, h.2.2.1, h.2.2.2.1⟩

/-- Counterexample to C3: a response whose only series has an empty
data-point list makes fetchMetric return value 0 with no error (the count
of contributing series is zero), and Collect then emits samples carrying
that synthetic zero value — the pipeline does produce samples, contrary to
the claim that absence of data produces no sample. -/
theorem zk_C3_counterexample :
    respAllEmpty.items.all (fun it => it.timeSeries.all (fun ts => ts.data.isEmpty)) = true ∧
    fetchMetric httpAllEmpty zcDemo "alerts_rate" "DemoCluster" = Except.ok 0 ∧
    Collect httpAllEmpty zcDemo ≠ [] ∧
    Collect httpAllEmpty zcDemo =
      [⟨zcDemo.alertsRate, 0, ["DemoCluster"]⟩,
       ⟨zcDemo.alertsRateAcrossClusters, 0, []⟩,
       ⟨zcDemo.totalAlertsRateAcrossClusters, 0, []⟩,
       ⟨zcDemo.canaryDuration, 0, ["DemoCluster"]⟩] := by
  refine ⟨by decide, by decide, by decide, by decide⟩

/-- C3 amended: a series with an empty data-point list contributes zero
records to the normalization (the accumulation step leaves the sum/count
unchanged wherever the series appears, and no crash occurs); however, when
every series of a response is empty, fetchMetric returns value 0 with a nil
error rather than producing no value, and Collect consequently emits a
synthetic zero-valued sample for that query. -/
theorem zk_C3_amended_empty_series (pre post : List TSSeries) (ts : TSSeries)
    (acc : Int × Nat) (h : ts.data = [])
    (zc : ZookeeperCollector) (m c : String) (http : String → HTTPResult)
    (resp : TimeSeriesAPIResponse)
    (hh : http (buildFetchURL zc.cmHost zc.cmPort zc.apiVersion m c)
          = HTTPResult.response 200 (Except.ok resp))
    (hemp : ∀ it ∈ resp.items, ∀ ts2 ∈ it.timeSeries, ts2.data = []) :
    List.foldl seriesStep acc (pre ++ ts :: post) = List.foldl seriesStep acc (pre ++ post) ∧
    fetchMetric http zc m c = Except.ok 0 := by
  constructor
  · rw [List.foldl_append, List.foldl_append, List.foldl_cons]
    have hstep : seriesStep (List.foldl seriesStep acc pre) ts
        = List.foldl seriesStep acc pre := by
      simp [seriesStep, h]
    rw [hstep]
  · have hns := normalizeSum_empty resp hemp
    simp [fetchMetric, hh, hns]

/-- Witness for the amended C3: the empty series contributes nothing to the
accumulator, and the all-empty response yields value 0 with no error. -/
theorem zk_C3_amended_witness :
    List.foldl seriesStep (0, 0) ([] ++ (⟨"alerts_rate", []⟩ : TSSeries) :: [])
      = List.foldl seriesStep (0, 0) ([] ++ []) ∧
    fetchMetric httpAllEmpty zcDemo "alerts_rate" "DemoCluster" = Except.ok 0 :=
  zk_C3_amended_empty_series [] [] ⟨"alerts_rate", []⟩ (0, 0) rfl zcDemo "alerts_rate"
    "DemoCluster" httpAllEmpty respAllEmpty rfl
    (by
      intro it hit ts2 hts
      simp only [respAllEmpty, List.mem_singleton] at hit
      subst hit
      simp only [List.mem_singleton] at hts
      subst hts
      rfl)

/-- Counterexample to C4: a successful response with two series, each with
one data point (values 1 and 2), makes fetchMetric return the single summed
value 3 — numeric aggregation across series within one query response — and
Collect emits one sample per query carrying that sum, not one sample per
series (one sample where the claim requires two). -/
theorem zk_C4_counterexample :
    (respTwoSeries.items.map (fun it => it.timeSeries.length)) = [2] ∧
    respTwoSeries.items.all (fun it => it.timeSeries.all (fun ts => !ts.data.isEmpty)) = true ∧
    fetchMetric httpTwoSeries zcDemo "alerts_rate" "DemoCluster" = Except.ok 3 ∧
    Collect httpTwoSeries zcDemo =
      [⟨zcDemo.alertsRate, 3, ["DemoCluster"]⟩,
       ⟨zcDemo.alertsRateAcrossClusters, 3, []⟩,
       ⟨zcDemo.totalAlertsRateAcrossClusters, 3, []⟩,
       ⟨zcDemo.canaryDuration, 3, ["DemoCluster"]⟩] := by
  refine ⟨by decide, by decide, by decide, by decide⟩

/-- C4 amended: in the scraper-module path, a successful query response with
M series that each have a successfully extracted value yields exactly one
sample per series — M samples, each carrying its own series' value and
identities, with no cross-series aggregation; in the standalone collector
path, by contrast, fetchMetric sums the selected values across all series
of the response and a single value is emitted (exhibited by the
counterexample). -/
theorem zk_C4_amended_one_sample_per_series (fetch : String → Except String JsonParsed)
    (q : String) (d : Desc) (jp : JsonParsed)
    (hf : fetch q = Except.ok jp)
    (hn : jp.numSeries = Except.ok jp.seriesAt.length)
    (hvals : ∀ s ∈ jp.seriesAt, ∃ v, s.value = Except.ok v) :
    createZKMetric fetch q d =
      (true, jp.seriesAt.map (fun s =>
        { desc := d, value := s.value.toOption.getD 0,
          labelValues := [s.cluster, s.entityName] })) ∧
    (createZKMetric fetch q d).snd.length = jp.seriesAt.length := by
  have hck := createZKMetric_samples_eq fetch q d jp hf hn
  have hforall : ∀ s ∈ jp.seriesAt,
      (match s.value with
       | Except.error _ => none
       | Except.ok v => some ({ desc := d, value := v,
                                labelValues := [s.cluster, s.entityName] } : ZKMetricSample))
      = some { desc := d, value := s.value.toOption.getD 0,
               labelValues := [s.cluster, s.entityName] } := by
    intro s hs
    obtain ⟨v, hv⟩ := hvals s hs
    rw [hv]
    rfl
  have hmap := filterMap_eq_map_of_forall jp.seriesAt _ _ hforall
  constructor
  · rw [hck, hmap]
  · rw [hck]
    simp [hmap]

/-- Parsed response (scraper-module path) with two series whose values both
extract successfully. -/
def jpTwoOk : JsonParsed :=
  ⟨Except.ok 2, [⟨"C1", "zk-1", Except.ok 1⟩, ⟨"C2", "zk-2", Except.ok 2⟩]⟩

/-- Fetch oracle answering every query with jpTwoOk. -/
def fetchTwoOk : String → Except String JsonParsed := fun _ => Except.ok jpTwoOk

/-- Witness for the amended C4: two series with values 1 and 2 yield exactly
two samples, one per series, carrying 1 and 2 respectively. -/
theorem zk_C4_amended_witness :
    createZKMetric fetchTwoOk ZK_ALERTS_RATE zkAlertsRate =
      (true, [⟨zkAlertsRate, 1, ["C1", "zk-1"]⟩, ⟨zkAlertsRate, 2, ["C2", "zk-2"]⟩]) ∧
    (createZKMetric fetchTwoOk ZK_ALERTS_RATE zkAlertsRate).snd.length = 2 := by
  have h := zk_C4_amended_one_sample_per_series fetchTwoOk ZK_ALERTS_RATE zkAlertsRate jpTwoOk
    rfl rfl
    (by
      intro s hs
      simp only [jpTwoOk, List.mem_cons, List.not_mem_nil, or_false] at hs
      rcases hs with h1 | h2
      · exact ⟨1, by rw [h1]⟩
      · exact ⟨2, by rw [h2]⟩)
  exact ⟨h.1.trans (by decide), h.2⟩

/-- C7: a non-success (non-200) upstream HTTP status makes fetchMetric
return an upstream-error failure carrying the status code, and a scraper
binding whose fetch fails emits zero samples, is tallied as one error and
zero successes, while Scrape still returns nil overall. -/
theorem zk_C7_upstream_error (http : String → HTTPResult) (zc : ZookeeperCollector)
    (m c : String) (statusCode : Nat) (body : Except String TimeSeriesAPIResponse)
    (hs : statusCode ≠ 200)
    (hh : http (buildFetchURL zc.cmHost zc.cmPort zc.apiVersion m c)
          = HTTPResult.response statusCode body)
    (fetch : String → Except String JsonParsed) (rel : relation) (e : String)
    (hf : fetch rel.Query = Except.error e) :
    fetchMetric http zc m c = Except.error (FetchError.upstreamError statusCode) ∧
    zkScrape fetch [rel] =
      { successQueries := 0, errorQueries := 1, samples := [],
        attemptedQueries := [rel.Query], scrapeError := none } := by
  constructor
  · simp [fetchMetric, hh, hs]
  · rw [zkScrape_spec]
    have hck := createZKMetric_fetchError fetch rel.Query rel.Metric_struct e hf
    simp [List.filter_cons, hck]

/-- HTTP oracle answering every URL with status 500. -/
def http500 : String → HTTPResult := fun _ => HTTPResult.response 500 (Except.ok respAllEmpty)

/-- Fetch oracle whose every query fails with the non-200 error message. -/
def fetch500 : String → Except String JsonParsed :=
  fun _ => Except.error "non-200 response: 500"

/-- Witness for C7 at status 500: the fetch fails with the upstream error
carrying 500, zero samples are emitted, the tally is one error, and the
module result is nil. -/
theorem zk_C7_witness :
    fetchMetric http500 zcDemo "alerts_rate" "DemoCluster"
      = Except.error (FetchError.upstreamError 500) ∧
    zkScrape fetch500 [⟨ZK_ALERTS_RATE, zkAlertsRate⟩] =
      { successQueries := 0, errorQueries := 1, samples := [],
        attemptedQueries := [ZK_ALERTS_RATE], scrapeError := none } :=
  zk_C7_upstream_error http500 zcDemo "alerts_rate" "DemoCluster" 500 (Except.ok respAllEmpty)
    (by decide) rfl fetch500 ⟨ZK_ALERTS_RATE, zkAlertsRate⟩ "non-200 response: 500" rfl

/-- Counterexample to C5: in the scraper module, the across-clusters
aggregate descriptor declares the same two labels (cluster, entityName) as
the base metrics — not zero labels — its binding is part of the module's
table, and its emission path supplies the cluster/entity identities from
the response rather than ignoring them. -/
theorem zk_C5_counterexample :
    zkAlertsRateAcrossClusters.labelNames = ["cluster", "entityName"] ∧
    zkAlertsRateAcrossClusters.labelNames ≠ [] ∧
    (⟨ZK_ALERTS_RATE_ACROSS_CLUSTERS, zkAlertsRateAcrossClusters⟩ : relation)
      ∈ zkQueryVariableRelationship ∧
    (createZKMetric fetchTwoOk ZK_ALERTS_RATE_ACROSS_CLUSTERS zkAlertsRateAcrossClusters).snd
      = [⟨zkAlertsRateAcrossClusters, 1, ["C1", "zk-1"]⟩,
         ⟨zkAlertsRateAcrossClusters, 2, ["C2", "zk-2"]⟩] := by
  refine ⟨by decide, by decide, by decide, by decide⟩

/-- C5 amended: every emitted sample's label-value count equals its
descriptor's declared label count, in both pipelines; in the standalone
collector the across-clusters descriptors declare zero labels and their
samples carry zero label values (identity inputs are ignored there, the
aggregate fetch being unscoped); in the scraper module, however, the
across-clusters descriptors declare the same two labels as base metrics
and receive the response's cluster/entity identities (per the
counterexample). -/
theorem zk_C5_amended_label_counts :
    (∀ (fetch : String → Except String JsonParsed) (s : ZKMetricSample),
      s ∈ (zkScrape fetch zkQueryVariableRelationship).samples →
      s.labelValues.length = s.desc.labelNames.length) ∧
    (∀ (h p v u pw : String) (http : String → HTTPResult) (s : ZKMetricSample),
      s ∈ Collect http (NewZookeeperCollector h p v u pw) →
      s.labelValues.length = s.desc.labelNames.length) ∧
    (∀ h p v u pw : String,
      (NewZookeeperCollector h p v u pw).alertsRateAcrossClusters.labelNames = [] ∧
      (NewZookeeperCollector h p v u pw).totalAlertsRateAcrossClusters.labelNames = []) ∧
    (∀ (h p v u pw : String) (http : String → HTTPResult) (s : ZKMetricSample),
      s ∈ Collect http (NewZookeeperCollector h p v u pw) →
      s.desc.labelNames = [] → s.labelValues = []) := by
  have htab : ∀ r ∈ zkQueryVariableRelationship, r.Metric_struct.labelNames.length = 2 := by
    decide
  refine ⟨?_, ?_, ?_, ?_⟩
  · intro fetch s hs
    rw [zkScrape_spec] at hs
    simp only at hs
    rw [List.mem_flatMap] at hs
    obtain ⟨rel, hrel, hsin⟩ := hs
    obtain ⟨hdesc, hlen⟩ := mem_createZKMetric_samples fetch rel.Query rel.Metric_struct s hsin
    rw [hlen, hdesc]
    exact (htab rel hrel).symm
  · intro h p v u pw http s hs
    simp only [Collect, List.mem_append] at hs
    rcases hs with ((hs | hs) | hs) | hs <;>
      · obtain ⟨hd, hl⟩ := mem_emitIfOk _ _ _ _ hs
        rw [hl, hd]
        rfl
  · intro h p v u pw
    exact ⟨rfl, rfl⟩
  · intro h p v u pw http s hs hempty
    simp only [Collect, List.mem_append] at hs
    rcases hs with ((hs | hs) | hs) | hs
    · obtain ⟨hd, hl⟩ := mem_emitIfOk _ _ _ _ hs
      rw [hd] at hempty
      exact absurd hempty (by simp [NewZookeeperCollector])
    · exact (mem_emitIfOk _ _ _ _ hs).2
    · exact (mem_emitIfOk _ _ _ _ hs).2
    · obtain ⟨hd, hl⟩ := mem_emitIfOk _ _ _ _ hs
      rw [hd] at hempty
      exact absurd hempty (by simp [NewZookeeperCollector])

/-- Witness for the amended C5: a module-path sample carries as many label
values as its descriptor declares labels, and an aggregate sample of the
standalone collector carries zero label values. -/
theorem zk_C5_amended_witness :
    ((⟨zkAlertsRate, 1, ["C1", "zk-1"]⟩ : ZKMetricSample)).labelValues.length
      = ((⟨zkAlertsRate, 1, ["C1", "zk-1"]⟩ : ZKMetricSample)).desc.labelNames.length ∧
    ((⟨zcDemo.alertsRateAcrossClusters, 0, []⟩ : ZKMetricSample)).labelValues = [] := by
  constructor
  · exact zk_C5_amended_label_counts.1 fetchTwoOk ⟨zkAlertsRate, 1, ["C1", "zk-1"]⟩ (by decide)
  · exact zk_C5_amended_label_counts.2.2.2 "cm-host" "7180" "v33" "admin" "secret"
      httpAllEmpty ⟨zcDemo.alertsRateAcrossClusters, 0, []⟩ (by decide) (by decide)

/-- Parsed response (scraper-module path) with a single series whose value
extracts successfully. -/
def jpOneOk : JsonParsed := ⟨Except.ok 1, [⟨"C1", "zk-server-1", Except.ok 5⟩]⟩

/-- Fetch oracle modelling a context canceled after the first binding of
tbl3 completes: the first query succeeds, every later query's transport
call aborts with a context-canceled failure (the underlying HTTP call of
make_and_parse_timeseries_query, outside src, is spec-modelled as failing
once the context is canceled). -/
def fetchCancelAfterFirst : String → Except String JsonParsed :=
  fun q => if q = ZK_ALERTS_RATE then Except.ok jpOneOk else Except.error "context canceled"

/-- Three-binding table for the cancellation scenario. -/
def tbl3 : List relation :=
  [⟨ZK_ALERTS_RATE, zkAlertsRate⟩, ⟨ZK_CANARY_DURATION, zkCanaryDuration⟩,
   ⟨ZK_CURRENT_EPOCH_RATE, zkCurrentEpochRate⟩]

/-- Counterexample to C6: with the context canceled after the first of three
bindings completes, Scrape still attempts all three bindings (the loop
contains no cancellation check), contradicting the claim that the module
stops issuing further bindings without attempting the remaining ones; only
the first binding's samples are emitted and the two canceled fetches are
tallied as errors. -/
theorem zk_C6_counterexample :
    (zkScrape fetchCancelAfterFirst tbl3).attemptedQueries
      = [ZK_ALERTS_RATE, ZK_CANARY_DURATION, ZK_CURRENT_EPOCH_RATE] ∧
    (zkScrape fetchCancelAfterFirst tbl3).attemptedQueries ≠ [ZK_ALERTS_RATE] ∧
    (zkScrape fetchCancelAfterFirst tbl3).samples
      = [⟨zkAlertsRate, 5, ["C1", "zk-server-1"]⟩] ∧
    (zkScrape fetchCancelAfterFirst tbl3).errorQueries = 2 ∧
    (zkScrape fetchCancelAfterFirst tbl3).scrapeError = none := by
  refine ⟨by decide, by decide, by decide, by decide, by decide⟩

/-- C6 amended: when the context is canceled after the first binding
completes (modelled as every later fetch failing), Scrape does not stop:
it still attempts every remaining binding, each failed fetch is tallied as
an error, no samples beyond the first binding's are emitted, and the module
returns nil. -/
theorem zk_C6_amended_no_cancellation_check (fetch : String → Except String JsonParsed)
    (r1 : relation) (rest : List relation)
    (hok : (createZKMetric fetch r1.Query r1.Metric_struct).fst = true)
    (hfail : ∀ r ∈ rest, ∃ e, fetch r.Query = Except.error e) :
    zkScrape fetch (r1 :: rest) =
      { successQueries := 1, errorQueries := rest.length,
        samples := (createZKMetric fetch r1.Query r1.Metric_struct).snd,
        attemptedQueries := (r1 :: rest).map (fun r => r.Query),
        scrapeError := none } := by
  have hfs : ∀ r ∈ rest, createZKMetric fetch r.Query r.Metric_struct = (false, []) := by
    intro r hr
    obtain ⟨e, he⟩ := hfail r hr
    exact createZKMetric_fetchError fetch r.Query r.Metric_struct e he
  have hflt1 : rest.filter (fun rel => (createZKMetric fetch rel.Query rel.Metric_struct).fst)
      = [] := by
    rw [List.filter_eq_nil_iff]
    intro r hr
    rw [hfs r hr]
    simp
  have hflt2 : rest.filter (fun rel => !(createZKMetric fetch rel.Query rel.Metric_struct).fst)
      = rest := by
    rw [List.filter_eq_self]
    intro r hr
    rw [hfs r hr]
    rfl
  have hfm : rest.flatMap (fun rel => (createZKMetric fetch rel.Query rel.Metric_struct).snd)
      = [] := by
    rw [List.flatMap_eq_nil_iff]
    intro r hr
    rw [hfs r hr]
  rw [zkScrape_spec]
  simp [List.filter_cons, List.flatMap_cons, hok, hflt1, hflt2, hfm]

/-- Witness for the amended C6 at the three-binding cancellation scenario:
all three queries are attempted, the tally is one success and two errors,
only the first binding's sample is emitted, and the result is nil. -/
theorem zk_C6_amended_witness :
    zkScrape fetchCancelAfterFirst tbl3 =
      { successQueries := 1, errorQueries := 2,
        samples := [⟨zkAlertsRate, 5, ["C1", "zk-server-1"]⟩],
        attemptedQueries := [ZK_ALERTS_RATE, ZK_CANARY_DURATION, ZK_CURRENT_EPOCH_RATE],
        scrapeError := none } := by
  have h := zk_C6_amended_no_cancellation_check fetchCancelAfterFirst
    ⟨ZK_ALERTS_RATE, zkAlertsRate⟩
    [⟨ZK_CANARY_DURATION, zkCanaryDuration⟩, ⟨ZK_CURRENT_EPOCH_RATE, zkCurrentEpochRate⟩]
    (by decide)
    (by
      intro r hr
      simp only [List.mem_cons, List.not_mem_nil, or_false] at hr
      rcases hr with h1 | h2
      · exact ⟨"context canceled", by rw [h1]; decide⟩
      · exact ⟨"context canceled", by rw [h2]; decide⟩)
  exact h.trans (by decide)

/-- Counterexample to C8: the query expression is pasted into the URL
verbatim, not URL-encoded — for an expression containing a space the built
URL differs from the claimed URL-encoded form. -/
theorem zk_C8_counterexample :
    buildFetchURL "h" "p" "v" "a b" "" = "http://h:p/api/v/timeseries?query=a b" ∧
    urlEncode "a b" = "a%20b" ∧
    buildFetchURL "h" "p" "v" "a b" ""
      ≠ "http://h:p/api/v/timeseries?query=" ++ urlEncode "a b" := by
  refine ⟨by decide, by decide, by decide⟩

/-- C8 amended: the request URL is built by string templating with the query
expression inserted verbatim (no URL-encoding is applied by the code; the
call sites only pass metric names that are fixed points of URL-encoding);
a non-empty cluster scope is appended to the scopeless URL as the
percent-encoded bracket clause embedded in the query expression — not as a
separate query parameter — and an empty scope appends no clause. -/
theorem zk_C8_amended_verbatim_with_encoded_scope (h p v m c : String) (hc : c ≠ "") :
    buildFetchURL h p v m c
      = buildFetchURL h p v m "" ++ "%5BclusterName=" ++ c ++ "%5D" ∧
    buildFetchURL h p v m ""
      = "http://" ++ h ++ ":" ++ p ++ "/api/" ++ v ++ "/timeseries?query=" ++ m ∧
    (∀ n ∈ ["alerts_rate", "alerts_rate_across_clusters",
            "total_alerts_rate_across_clusters", "canary_duration"], urlEncode n = n) := by
  refine ⟨?_, ?_, by decide⟩
  · simp [buildFetchURL, hc]
  · simp [buildFetchURL]

/-- Witness for the amended C8 at the demo connection values: the scoped URL
is the scopeless URL with the bracket clause appended, and the scopeless
URL is the plain template. -/
theorem zk_C8_amended_witness :
    buildFetchURL "cm-host" "7180" "v33" "alerts_rate" "DemoCluster"
      = buildFetchURL "cm-host" "7180" "v33" "alerts_rate" ""
        ++ "%5BclusterName=" ++ "DemoCluster" ++ "%5D" ∧
    buildFetchURL "cm-host" "7180" "v33" "alerts_rate" ""
      = "http://" ++ "cm-host" ++ ":" ++ "7180" ++ "/api/" ++ "v33"
        ++ "/timeseries?query=" ++ "alerts_rate" := by
  have hthm := zk_C8_amended_verbatim_with_encoded_scope "cm-host" "7180" "v33" "alerts_rate"
    "DemoCluster" (by decide)
  exact ⟨hthm.1, hthm.2.1⟩

/-- C9: Describe returns the same fixed set of fourteen descriptors on every
call — it is a pure projection of the descriptor fields, independent of the
connection configuration and of any live data — and every sample emitted by
Collect uses a descriptor belonging to that set. -/
theorem zk_C9_describe_static_collect_subset
    (h1 p1 v1 u1 pw1 h2 p2 v2 u2 pw2 : String) (http : String → HTTPResult)
    (s : ZKMetricSample)
    (hs : s ∈ Collect http (NewZookeeperCollector h1 p1 v1 u1 pw1)) :
    Describe (NewZookeeperCollector h1 p1 v1 u1 pw1)
      = Describe (NewZookeeperCollector h2 p2 v2 u2 pw2) ∧
    (Describe (NewZookeeperCollector h1 p1 v1 u1 pw1)).length = 14 ∧
    s.desc ∈ Describe (NewZookeeperCollector h1 p1 v1 u1 pw1) := by
  refine ⟨rfl, rfl, ?_⟩
  simp only [Collect, List.mem_append] at hs
  rcases hs with ((hs | hs) | hs) | hs <;>
    · obtain ⟨hd, _⟩ := mem_emitIfOk _ _ _ _ hs
      rw [hd]
      simp [Describe]

/-- Witness for C9: two collectors with different connection details
describe the same descriptor set of fourteen entries, and a concrete
emitted sample's descriptor belongs to it. -/
theorem zk_C9_witness :
    Describe (NewZookeeperCollector "cm-host" "7180" "v33" "admin" "secret")
      = Describe (NewZookeeperCollector "other-host" "8080" "v2" "user" "pass") ∧
    (Describe (NewZookeeperCollector "cm-host" "7180" "v33" "admin" "secret")).length = 14 ∧
    ((⟨zcDemo.alertsRate, 0, ["DemoCluster"]⟩ : ZKMetricSample)).desc
      ∈ Describe (NewZookeeperCollector "cm-host" "7180" "v33" "admin" "secret") :=
  zk_C9_describe_static_collect_subset "cm-host" "7180" "v33" "admin" "secret"
    "other-host" "8080" "v2" "user" "pass" httpAllEmpty
    ⟨zcDemo.alertsRate, 0, ["DemoCluster"]⟩ (by decide)

end ClouderaZK
